import Mathlib

/-!
Shallow embedding of `src/examples/shadows/world.rs` from the `spark_gap`
repository: the `World` shadow-mapping orchestrator.

Modelling conventions:
* Rust `f32` values are modelled as exact rationals (`ℚ`); the 4×4 matrices
  built with `glam` are modelled symbolically by the constructor expressions
  the code writes (`Mat4::perspective_rh`, `Mat4::orthographic_rh`,
  `Mat4::look_at_rh`, `Mat4::IDENTITY`, matrix multiplication), since no
  verified property inspects numeric matrix entries.
* GPU resources created by collaborator modules that are not part of the
  core source (buffers, pipelines, bind groups) are carried as opaque `Nat`
  identities in the corresponding `World` fields; texture views carry their
  creation descriptor.
* `World::render` is modelled as the list of GPU commands it records and
  enqueues, in program order.  Rust panics (`expect` on surface acquisition,
  out-of-bounds `lights[...]` indexing) are modelled by `Option`: `none`
  means the call panics and no frame is produced.
* `Entities::update` and `Lights::update` live in collaborator files; they
  only upload per-frame uniform data, and are modelled as opaque marker
  actions at the head of the frame's command stream.
-/

namespace SparkGap

/-- A 3-component `f32` vector (`glam::Vec3`), components as exact rationals. -/
structure Vec3 where
  x : ℚ
  y : ℚ
  z : ℚ
deriving DecidableEq

/-- Symbolic model of `glam::Mat4`: the matrix-building expressions the
source uses.  Two matrices are equal exactly when they are built by the same
constructor calls on the same arguments. -/
inductive Mat4 where
  | identity
  | mul (a b : Mat4)
  | perspectiveRh (fovy aspect znear zfar : ℚ)
  | orthographicRh (left right bottom top znear zfar : ℚ)
  | lookAtRh (eye target up : Vec3)
deriving DecidableEq

/-- Stand-in rational for `std::f32::consts::FRAC_PI_4` (π/4).  No verified
property depends on its numeric value; it only tags the fovy argument of the
perspective matrix the way the source writes it. -/
def FRAC_PI_4 : ℚ := 0.7853981633974483

inductive TexDim where
  | d2
deriving DecidableEq

inductive TextureFormat where
  | depth32Float
  | surfaceColor
deriving DecidableEq

inductive TextureUsage where
  | renderAttachment
deriving DecidableEq

/-- The `wgpu::TextureDescriptor` fields `create_depth_texture` fills in. -/
structure TextureDesc where
  width : Nat
  height : Nat
  depthOrArrayLayers : Nat
  mipLevelCount : Nat
  sampleCount : Nat
  dimension : TexDim
  format : TextureFormat
  usage : TextureUsage
deriving DecidableEq

/-- A `wgpu::TextureView`, identified by the descriptor of its texture. -/
structure TextureView where
  texture : TextureDesc
deriving DecidableEq

/-- Modelled from the spec: `spark_gap::texture::DEPTH_FORMAT`, a constant of
the graphics-context collaborator crate absent from the core source.  Its
identity is irrelevant to the verified properties; it is fixed as the depth
format. -/
def DEPTH_FORMAT : TextureFormat := TextureFormat.depth32Float

inductive IndexFormat where
  | uint16
  | uint32
deriving DecidableEq

/-- One renderable entity (`crate::entities`): geometry buffer identities and
the offset of its transform in the shared uniform buffer. -/
structure Entity where
  vertex_buf : Nat
  index_buf : Nat
  index_format : IndexFormat
  index_count : Nat
  uniform_offset : Nat
deriving DecidableEq

/-- The entity set: ordered entities, their shared bind group. -/
structure Entities where
  entities : List Entity
  entity_bind_group : Nat
deriving DecidableEq

/-- One shadow-casting light: position, light-space projection-view matrix,
and the depth view rendered into during the shadow pass. -/
structure Light where
  position : Vec3
  projection_view : Mat4
  shadow_view : TextureView
deriving DecidableEq

/-- The ordered light set. -/
structure Lights where
  lights : List Light
deriving DecidableEq

/-- The shadow pass: pipeline and light bind group identities. -/
structure ShadowPass where
  pipeline : Nat
  bind_group : Nat
deriving DecidableEq

/-- The forward pass: pipeline, bind group and camera uniform buffer. -/
structure ForwardPass where
  pipeline : Nat
  bind_group : Nat
  projection_view_buffer : Nat
deriving DecidableEq

/-- The shadow-debug material: its dedicated uniform buffers, debug pipeline
and debug bind group identities. -/
structure ShadowMaterial where
  projection_view_buffer : Nat
  layer_num_buffer : Nat
  shadow_debug_pipeline : Nat
  debug_bind_group : Nat
deriving DecidableEq

/-- `World` (world.rs lines 17-27): the top-level aggregate. -/
structure World where
  entities : Entities
  lights : Lights
  shadow_material : ShadowMaterial
  shadow_pass : ShadowPass
  forward_pass : ForwardPass
  forward_depth : TextureView
  show_shadows : Bool
  layer_number : Nat
  camera_position : Nat
deriving DecidableEq

/-- Contents of a GPU uniform buffer in the model. -/
inductive BufVal where
  | mat (m : Mat4)
  | u32 (n : Nat)
deriving DecidableEq

/-- The surface configuration exposed by the graphics context. -/
structure SurfaceConfig where
  width : Nat
  height : Nat
deriving DecidableEq

/-- The graphics-context collaborator, restricted to what `render`/`resize`
touch: the surface configuration, the next presentable frame
(`surface.get_current_texture()`: `none` models acquisition failure, on
which the source's `expect` panics), and the current contents of the GPU
uniform buffers (an association list from buffer identity to contents,
never read by the recording code). -/
structure GpuContext where
  config : SurfaceConfig
  frame : Option TextureView
  bufferContents : List (Nat × BufVal)
deriving DecidableEq

/-- Color clear value for a color attachment. -/
structure Color where
  r : ℚ
  g : ℚ
  b : ℚ
  a : ℚ
deriving DecidableEq

inductive LoadOp where
  | clear (v : ℚ)
  | load
deriving DecidableEq

inductive ColorLoadOp where
  | clear (c : Color)
  | load
deriving DecidableEq

inductive StoreOp where
  | store
  | discard
deriving DecidableEq

structure ColorAttachment where
  view : TextureView
  load : ColorLoadOp
  store : StoreOp
deriving DecidableEq

structure DepthAttachment where
  view : TextureView
  depthLoad : LoadOp
  depthStore : StoreOp
deriving DecidableEq

/-- A `wgpu::RenderPassDescriptor`, restricted to its attachments. -/
structure RenderPassDesc where
  colorAttachments : List ColorAttachment
  depthStencilAttachment : Option DepthAttachment
deriving DecidableEq

/-- Commands recorded inside a render pass. -/
inductive PassCmd where
  | setPipeline (p : Nat)
  | setBindGroup (slot : Nat) (g : Nat) (offsets : List Nat)
  | setVertexBuffer (slot : Nat) (buf : Nat)
  | setIndexBuffer (buf : Nat) (fmt : IndexFormat)
  | drawIndexed (idxStart idxEnd : Nat) (base : Int) (instStart instEnd : Nat)
  | draw (vtxStart vtxEnd instStart instEnd : Nat)
deriving DecidableEq

/-- One step of the frame's command stream, in program order.  Debug-group
labels are elided (no verified property reads them). -/
inductive Action where
  | entitiesUpdate
  | lightsUpdate
  | pushDebugGroup
  | insertDebugMarker
  | popDebugGroup
  | beginPass (desc : RenderPassDesc)
  | passCmd (c : PassCmd)
  | endPass
  | writeMat4Buffer (buf : Nat) (m : Mat4)
  | writeU32Buffer (buf : Nat) (v : Nat)
  | submit
  | present
deriving DecidableEq

/-- `get_projection_view_matrix` (world.rs lines 241-245): the fixed default
scene camera. -/
def get_projection_view_matrix (aspect_ratio : ℚ) : Mat4 :=
  Mat4.mul (Mat4.perspectiveRh FRAC_PI_4 aspect_ratio 1 200)
    (Mat4.lookAtRh ⟨3, -20, 6⟩ ⟨0, 0, 0⟩ ⟨0, 0, 1⟩)

/-- `create_depth_texture` (world.rs lines 247-264): a depth texture sized
by the current surface configuration, viewed whole. -/
def create_depth_texture (gpu_context : GpuContext) : TextureView :=
  { texture :=
      { width := gpu_context.config.width
        height := gpu_context.config.height
        depthOrArrayLayers := 1
        mipLevelCount := 1
        sampleCount := 1
        dimension := TexDim.d2
        format := DEPTH_FORMAT
        usage := TextureUsage.renderAttachment } }

/-- The per-entity recording of the shadow loop body (world.rs lines
105-114): bind the entity's uniform slot and geometry, then an indexed draw
with instance range `i..(i + 1)`.  The forward-pass entity loop (lines
191-198) is this same recording at `i = 0` (instance range `0..1`). -/
def entityDraws (w : World) (i : Nat) : List Entity → List Action
  | [] => []
  | e :: rest =>
    Action.passCmd (PassCmd.setBindGroup 1 w.entities.entity_bind_group [e.uniform_offset]) ::
    Action.passCmd (PassCmd.setVertexBuffer 0 e.vertex_buf) ::
    Action.passCmd (PassCmd.setIndexBuffer e.index_buf e.index_format) ::
    Action.passCmd (PassCmd.drawIndexed 0 e.index_count 0 i (i + 1)) ::
    entityDraws w i rest

/-- The depth-only render-pass descriptor of the shadow sub-pass for one
light (world.rs lines 85-100): no color attachments, depth target is the
light's shadow view, cleared to 1.0 and stored. -/
def shadowRenderPassDesc (light : Light) : RenderPassDesc :=
  { colorAttachments := []
    depthStencilAttachment :=
      some { view := light.shadow_view
             depthLoad := LoadOp.clear 1
             depthStore := StoreOp.store } }

/-- One iteration of the shadow loop (world.rs lines 81-116) for light
index `i`. -/
def shadowBlock (w : World) (i : Nat) (light : Light) : List Action :=
  Action.pushDebugGroup ::
  Action.insertDebugMarker ::
  Action.beginPass (shadowRenderPassDesc light) ::
  Action.passCmd (PassCmd.setPipeline w.shadow_pass.pipeline) ::
  Action.passCmd (PassCmd.setBindGroup 0 w.shadow_pass.bind_group []) ::
  (entityDraws w i w.entities.entities ++ [Action.endPass, Action.popDebugGroup])

/-- The `for (i, light) in self.lights.lights.iter().enumerate()` loop
(world.rs line 78), carrying the running index. -/
def shadowLoop (w : World) : Nat → List Light → List Action
  | _, [] => []
  | i, light :: rest => shadowBlock w i light ++ shadowLoop w (i + 1) rest

/-- The whole shadow section (world.rs lines 76-118). -/
def shadowSection (w : World) : List Action :=
  Action.pushDebugGroup :: (shadowLoop w 0 w.lights.lights ++ [Action.popDebugGroup])

/-- The locals `width`, `height`, `aspect_ratio` of `render` (world.rs lines
161-163): half-extents of the surface, and their ratio. -/
def aspectOf (cfg : SurfaceConfig) : ℚ :=
  ((cfg.width : ℚ) / 2) / ((cfg.height : ℚ) / 2)

/-- The local `project_view_matrix` of `render` (world.rs lines 165-168):
orthographic top-down framing used by the shadow-debug overlay. -/
def orthoProjectView (cfg : SurfaceConfig) : Mat4 :=
  Mat4.mul
    (Mat4.orthographicRh (-((cfg.width : ℚ) / 2)) ((cfg.width : ℚ) / 2)
      (-((cfg.height : ℚ) / 2)) ((cfg.height : ℚ) / 2) (1 / 10) 1000)
    (Mat4.lookAtRh ⟨0, 1 / 10000, 200⟩ ⟨0, 0, 0⟩ ⟨0, 0, 1⟩)

/-- The `match &self.camera_position` of `render` (world.rs lines 173-178).
`none` models the panic of the out-of-bounds indexings
`self.lights.lights[0]` / `self.lights.lights[1]`. -/
def computePV (w : World) (aspect_ratio : ℚ) : Option Mat4 :=
  match w.camera_position with
  | 0 => some (get_projection_view_matrix aspect_ratio)
  | 1 => (w.lights.lights[0]?).map (fun l => l.projection_view)
  | 2 => (w.lights.lights[1]?).map (fun l => l.projection_view)
  | _ => some Mat4.identity

/-- Modelled from the spec: `shadow_render_debug`
(src/examples/shadows/debug_shadow.rs, a file absent from the core source).
Per the spec's Shadow Debug Overlay contract it binds the shadow material's
own bind group and draws a full-screen quad sampling the selected layer; it
never binds the forward pass's bind group and performs no buffer writes. -/
def shadow_render_debug (m : ShadowMaterial) : List Action :=
  [Action.passCmd (PassCmd.setBindGroup 0 m.debug_bind_group []),
   Action.passCmd (PassCmd.draw 0 6 0 1)]

/-- The forward/debug render-pass descriptor (world.rs lines 131-159):
one color attachment on the acquired frame view cleared to the fixed
background color and stored, and the screen-space depth target cleared to
1.0 and discarded. -/
def forwardRenderPassDesc (w : World) (frame_view : TextureView) : RenderPassDesc :=
  { colorAttachments :=
      [{ view := frame_view
         load := ColorLoadOp.clear { r := 1 / 10, g := 1 / 5, b := 3 / 10, a := 1 }
         store := StoreOp.store }]
    depthStencilAttachment :=
      some { view := w.forward_depth
             depthLoad := LoadOp.clear 1
             depthStore := StoreOp.discard } }

/-- The forward section (world.rs lines 121-201): begin the color pass,
write the overlay's dedicated uniforms and the forward camera uniform, then
either the shadow-debug overlay path or the per-entity forward draws. -/
def forwardSection (w : World) (cfg : SurfaceConfig) (frame_view : TextureView)
    (pv : Mat4) : List Action :=
  Action.pushDebugGroup ::
  Action.beginPass (forwardRenderPassDesc w frame_view) ::
  Action.writeMat4Buffer w.shadow_material.projection_view_buffer (orthoProjectView cfg) ::
  Action.writeU32Buffer w.shadow_material.layer_num_buffer w.layer_number ::
  Action.writeMat4Buffer w.forward_pass.projection_view_buffer pv ::
  ((if w.show_shadows = true then
      Action.passCmd (PassCmd.setPipeline w.shadow_material.shadow_debug_pipeline) ::
      shadow_render_debug w.shadow_material
    else
      Action.passCmd (PassCmd.setPipeline w.forward_pass.pipeline) ::
      Action.passCmd (PassCmd.setBindGroup 0 w.forward_pass.bind_group []) ::
      entityDraws w 0 w.entities.entities)
    ++ [Action.endPass, Action.popDebugGroup])

/-- The full command stream of a successful `render` call: updates, shadow
section, forward section, then a single submit and the present. -/
def renderTrace (w : World) (cfg : SurfaceConfig) (frame_view : TextureView)
    (pv : Mat4) : List Action :=
  Action.entitiesUpdate :: Action.lightsUpdate ::
    (shadowSection w ++ forwardSection w cfg frame_view pv ++
      [Action.submit, Action.present])

/-- `World::render` (world.rs lines 67-205).  Returns the recorded command
stream, or `none` when the call panics (surface acquisition failure, or
light indexing out of bounds in the viewpoint match). -/
def render (w : World) (ctx : GpuContext) : Option (List Action) :=
  match ctx.frame with
  | none => none
  | some frame_view =>
    match computePV w (aspectOf ctx.config) with
    | none => none
    | some pv => some (renderTrace w ctx.config frame_view pv)

/-- `World::resize` (world.rs lines 207-216): upload the default camera
matrix at the new aspect ratio and recreate the screen-space depth target.
Returns the updated world and the buffer writes performed. -/
def resize (w : World) (gpu_context : GpuContext) : World × List Action :=
  let mx_total :=
    get_projection_view_matrix ((gpu_context.config.width : ℚ) / (gpu_context.config.height : ℚ))
  ({ w with forward_depth := create_depth_texture gpu_context },
   [Action.writeMat4Buffer w.forward_pass.projection_view_buffer mx_total])

/-! ## Derived observations on command streams -/

/-- The render-pass descriptor begun by an action, if any. -/
def passDescOf : Action → Option RenderPassDesc
  | Action.beginPass d => some d
  | _ => none

/-- Descriptors of the render passes begun in a command stream, in order. -/
def beginsIn (tr : List Action) : List RenderPassDesc := tr.filterMap passDescOf

/-- The matrix written to buffer `b` by an action, if any. -/
def mat4To (b : Nat) : Action → Option Mat4
  | Action.writeMat4Buffer b2 m => if b2 = b then some m else none
  | _ => none

/-- All matrices written to buffer `b` in a command stream, in order. -/
def mat4WritesTo (b : Nat) (tr : List Action) : List Mat4 := tr.filterMap (mat4To b)

/-- Is this action an indexed draw call? -/
def isDrawIndexed : Action → Bool
  | Action.passCmd (PassCmd.drawIndexed _ _ _ _ _) => true
  | _ => false

/-- Is this action a non-indexed draw call (the debug overlay quad)? -/
def isQuadDraw : Action → Bool
  | Action.passCmd (PassCmd.draw _ _ _ _) => true
  | _ => false

/-- Is this action any draw call? -/
def isDrawAct (a : Action) : Bool := isDrawIndexed a || isQuadDraw a

/-- Is this action a queue submission or a present? -/
def isSubmitOrPresent : Action → Bool
  | Action.submit => true
  | Action.present => true
  | _ => false

/-- Number of indexed draw calls in a command stream. -/
def countDrawIndexed (tr : List Action) : Nat := tr.countP isDrawIndexed

/-! ## Structure of the per-entity recording -/

lemma entityDraws_passCmds (w : World) (i : Nat) :
    ∀ es, ∀ a ∈ entityDraws w i es, ∃ c, a = Action.passCmd c := by
  intro es
  induction es with
  | nil => intro a ha; simp [entityDraws] at ha
  | cons e rest ih =>
    intro a ha
    simp only [entityDraws, List.mem_cons] at ha
    rcases ha with h | h | h | h | h
    · exact ⟨_, h⟩
    · exact ⟨_, h⟩
    · exact ⟨_, h⟩
    · exact ⟨_, h⟩
    · exact ih a h

lemma beginsIn_of_passCmds (tr : List Action)
    (h : ∀ a ∈ tr, ∃ c, a = Action.passCmd c) : beginsIn tr = [] := by
  rw [beginsIn, List.filterMap_eq_nil_iff]
  intro a ha
  obtain ⟨c, rfl⟩ := h a ha
  rfl

lemma mat4WritesTo_of_passCmds (b : Nat) (tr : List Action)
    (h : ∀ a ∈ tr, ∃ c, a = Action.passCmd c) : mat4WritesTo b tr = [] := by
  rw [mat4WritesTo, List.filterMap_eq_nil_iff]
  intro a ha
  obtain ⟨c, rfl⟩ := h a ha
  rfl

lemma any_sp_of_passCmds (tr : List Action)
    (h : ∀ a ∈ tr, ∃ c, a = Action.passCmd c) : tr.any isSubmitOrPresent = false := by
  rw [List.any_eq_false]
  intro a ha
  obtain ⟨c, rfl⟩ := h a ha
  simp [isSubmitOrPresent]

lemma entityDraws_count (w : World) (i : Nat) :
    ∀ es, countDrawIndexed (entityDraws w i es) = es.length := by
  intro es
  induction es with
  | nil => rfl
  | cons e rest ih =>
    simp [entityDraws, countDrawIndexed, List.countP_cons, isDrawIndexed] at ih ⊢
    omega

lemma entityDraws_no_quad (w : World) (i : Nat) :
    ∀ es, (entityDraws w i es).any isQuadDraw = false := by
  intro es
  induction es with
  | nil => rfl
  | cons e rest ih => simp [entityDraws, isQuadDraw, ih]

lemma entityDraws_inst (w : World) (i : Nat) :
    ∀ es, ∀ a ∈ entityDraws w i es, ∀ a0 a1 b s t,
      a = Action.passCmd (PassCmd.drawIndexed a0 a1 b s t) → s = i ∧ t = i + 1 := by
  intro es
  induction es with
  | nil => intro a ha; simp [entityDraws] at ha
  | cons e rest ih =>
    intro a ha a0 a1 b s t heq
    simp only [entityDraws, List.mem_cons] at ha
    rcases ha with h | h | h | h | h
    · rw [h] at heq; cases heq
    · rw [h] at heq; cases heq
    · rw [h] at heq; cases heq
    · rw [h] at heq; cases heq; exact ⟨rfl, rfl⟩
    · exact ih a h a0 a1 b s t heq

/-! ## Structure of one shadow sub-pass and of the shadow loop -/

lemma shadowBlock_beginsIn (w : World) (i : Nat) (l : Light) :
    beginsIn (shadowBlock w i l) = [shadowRenderPassDesc l] := by
  have h := beginsIn_of_passCmds _ (entityDraws_passCmds w i w.entities.entities)
  simp [shadowBlock, beginsIn, passDescOf, List.filterMap_append] at h ⊢
  exact h

lemma shadowBlock_count (w : World) (i : Nat) (l : Light) :
    countDrawIndexed (shadowBlock w i l) = w.entities.entities.length := by
  have h := entityDraws_count w i w.entities.entities
  simp [shadowBlock, countDrawIndexed, List.countP_cons, List.countP_append,
    isDrawIndexed] at h ⊢
  exact h

lemma shadowBlock_no_sp (w : World) (i : Nat) (l : Light) :
    (shadowBlock w i l).any isSubmitOrPresent = false := by
  have h := any_sp_of_passCmds _ (entityDraws_passCmds w i w.entities.entities)
  simp [shadowBlock, isSubmitOrPresent, List.any_append] at h ⊢
  exact h

lemma shadowBlock_no_quad (w : World) (i : Nat) (l : Light) :
    (shadowBlock w i l).any isQuadDraw = false := by
  have h := entityDraws_no_quad w i w.entities.entities
  simp [shadowBlock, isQuadDraw, List.any_append] at h ⊢
  exact h

lemma shadowBlock_mat4 (b : Nat) (w : World) (i : Nat) (l : Light) :
    mat4WritesTo b (shadowBlock w i l) = [] := by
  have h := mat4WritesTo_of_passCmds b _ (entityDraws_passCmds w i w.entities.entities)
  simp [shadowBlock, mat4WritesTo, mat4To, List.filterMap_append] at h ⊢
  exact h

lemma beginsIn_append (xs ys : List Action) :
    beginsIn (xs ++ ys) = beginsIn xs ++ beginsIn ys := by
  simp [beginsIn, List.filterMap_append]

lemma mat4WritesTo_append (b : Nat) (xs ys : List Action) :
    mat4WritesTo b (xs ++ ys) = mat4WritesTo b xs ++ mat4WritesTo b ys := by
  simp [mat4WritesTo, List.filterMap_append]

lemma countDrawIndexed_append (xs ys : List Action) :
    countDrawIndexed (xs ++ ys) = countDrawIndexed xs + countDrawIndexed ys := by
  simp [countDrawIndexed, List.countP_append]

lemma mat4WritesTo_cons_none (b : Nat) (a : Action) (tr : List Action)
    (h : mat4To b a = none) : mat4WritesTo b (a :: tr) = mat4WritesTo b tr := by
  simp [mat4WritesTo, h]

lemma shadowLoop_beginsIn (w : World) :
    ∀ ls i, beginsIn (shadowLoop w i ls) = ls.map shadowRenderPassDesc := by
  intro ls
  induction ls with
  | nil => intro i; rfl
  | cons l rest ih =>
    intro i
    rw [shadowLoop, beginsIn_append, shadowBlock_beginsIn, ih (i + 1), List.map_cons]
    rfl

lemma shadowLoop_count (w : World) :
    ∀ ls i, countDrawIndexed (shadowLoop w i ls) =
      ls.length * w.entities.entities.length := by
  intro ls
  induction ls with
  | nil => intro i; simp [shadowLoop, countDrawIndexed]
  | cons l rest ih =>
    intro i
    rw [shadowLoop, countDrawIndexed_append, shadowBlock_count, ih (i + 1),
      List.length_cons]
    ring

lemma shadowLoop_no_sp (w : World) :
    ∀ ls i, (shadowLoop w i ls).any isSubmitOrPresent = false := by
  intro ls
  induction ls with
  | nil => intro i; rfl
  | cons l rest ih =>
    intro i
    rw [shadowLoop, List.any_append, shadowBlock_no_sp, ih (i + 1)]
    rfl

lemma shadowLoop_no_quad (w : World) :
    ∀ ls i, (shadowLoop w i ls).any isQuadDraw = false := by
  intro ls
  induction ls with
  | nil => intro i; rfl
  | cons l rest ih =>
    intro i
    rw [shadowLoop, List.any_append, shadowBlock_no_quad, ih (i + 1)]
    rfl

lemma shadowLoop_mat4 (b : Nat) (w : World) :
    ∀ ls i, mat4WritesTo b (shadowLoop w i ls) = [] := by
  intro ls
  induction ls with
  | nil => intro i; rfl
  | cons l rest ih =>
    intro i
    rw [shadowLoop, mat4WritesTo_append, shadowBlock_mat4, ih (i + 1)]
    rfl

lemma shadowLoop_sub (w : World) :
    ∀ ls i j l, ls[j]? = some l →
      ∃ pre post, shadowLoop w i ls = pre ++ shadowBlock w (i + j) l ++ post := by
  intro ls
  induction ls with
  | nil => intro i j l h; simp at h
  | cons l0 rest ih =>
    intro i j l h
    cases j with
    | zero =>
      simp at h
      exact ⟨[], shadowLoop w (i + 1) rest, by simp [shadowLoop, h]⟩
    | succ j2 =>
      simp at h
      obtain ⟨pre, post, hp⟩ := ih (i + 1) j2 l h
      refine ⟨shadowBlock w i l0 ++ pre, post, ?_⟩
      have : i + 1 + j2 = i + (j2 + 1) := by omega
      simp [shadowLoop, hp, this, List.append_assoc]

/-! ## Structure of the forward section -/

lemma forwardSection_beginsIn (w : World) (cfg : SurfaceConfig) (fv : TextureView)
    (pv : Mat4) : beginsIn (forwardSection w cfg fv pv) = [forwardRenderPassDesc w fv] := by
  cases hss : w.show_shadows with
  | true =>
    simp [forwardSection, hss, beginsIn, shadow_render_debug, passDescOf]
  | false =>
    have h := beginsIn_of_passCmds _ (entityDraws_passCmds w 0 w.entities.entities)
    simp [forwardSection, hss, beginsIn, passDescOf, List.filterMap_append] at h ⊢
    exact h

lemma forwardSection_count_off (w : World) (cfg : SurfaceConfig) (fv : TextureView)
    (pv : Mat4) (hss : w.show_shadows = false) :
    countDrawIndexed (forwardSection w cfg fv pv) = w.entities.entities.length := by
  have h := entityDraws_count w 0 w.entities.entities
  simp [forwardSection, hss, countDrawIndexed, List.countP_cons, List.countP_append,
    isDrawIndexed] at h ⊢
  exact h

lemma forwardSection_no_sp (w : World) (cfg : SurfaceConfig) (fv : TextureView)
    (pv : Mat4) : (forwardSection w cfg fv pv).any isSubmitOrPresent = false := by
  cases hss : w.show_shadows with
  | true =>
    simp [forwardSection, hss, shadow_render_debug, isSubmitOrPresent]
  | false =>
    have h := any_sp_of_passCmds _ (entityDraws_passCmds w 0 w.entities.entities)
    simp [forwardSection, hss, isSubmitOrPresent, List.any_append] at h ⊢
    exact h

lemma forwardSection_no_quad_off (w : World) (cfg : SurfaceConfig) (fv : TextureView)
    (pv : Mat4) (hss : w.show_shadows = false) :
    (forwardSection w cfg fv pv).any isQuadDraw = false := by
  have h := entityDraws_no_quad w 0 w.entities.entities
  simp [forwardSection, hss, isQuadDraw, List.any_append] at h ⊢
  exact h

lemma forwardSection_mat4 (w : World) (cfg : SurfaceConfig) (fv : TextureView)
    (pv : Mat4)
    (hne : w.shadow_material.projection_view_buffer ≠ w.forward_pass.projection_view_buffer) :
    mat4WritesTo w.forward_pass.projection_view_buffer (forwardSection w cfg fv pv) = [pv] := by
  cases hss : w.show_shadows with
  | true =>
    simp [forwardSection, hss, shadow_render_debug, mat4WritesTo, mat4To, hne]
  | false =>
    have h := mat4WritesTo_of_passCmds w.forward_pass.projection_view_buffer _
      (entityDraws_passCmds w 0 w.entities.entities)
    simp [forwardSection, hss, mat4WritesTo, mat4To, hne, List.filterMap_append] at h ⊢
    exact h

/-! ## Unfolding a successful render call -/

lemma render_some (w : World) (ctx : GpuContext) (tr : List Action)
    (hr : render w ctx = some tr) :
    ∃ fv pv, ctx.frame = some fv ∧ computePV w (aspectOf ctx.config) = some pv ∧
      tr = renderTrace w ctx.config fv pv := by
  revert hr
  unfold render
  cases hf : ctx.frame with
  | none => intro h; cases h
  | some fv =>
    cases hpv : computePV w (aspectOf ctx.config) with
    | none => intro h; cases h
    | some pv =>
      intro h
      exact ⟨fv, pv, rfl, rfl, (Option.some.inj h).symm⟩

lemma computePV_zero (w : World) (a : ℚ) (h : w.camera_position = 0) :
    computePV w a = some (get_projection_view_matrix a) := by
  simp [computePV, h]

lemma computePV_one (w : World) (a : ℚ) (h : w.camera_position = 1) :
    computePV w a = (w.lights.lights[0]?).map (fun l => l.projection_view) := by
  simp [computePV, h]

lemma computePV_two (w : World) (a : ℚ) (h : w.camera_position = 2) :
    computePV w a = (w.lights.lights[1]?).map (fun l => l.projection_view) := by
  simp [computePV, h]

lemma computePV_other (w : World) (a : ℚ) (h0 : w.camera_position ≠ 0)
    (h1 : w.camera_position ≠ 1) (h2 : w.camera_position ≠ 2) :
    computePV w a = some Mat4.identity := by
  obtain ⟨k, hk⟩ : ∃ k, w.camera_position = k + 3 :=
    ⟨w.camera_position - 3, by omega⟩
  simp [computePV, hk]

lemma shadowBlock_inst (w : World) (i : Nat) (l : Light) :
    ∀ a ∈ shadowBlock w i l, ∀ a0 a1 b s t,
      a = Action.passCmd (PassCmd.drawIndexed a0 a1 b s t) → s = i ∧ t = i + 1 := by
  intro a ha a0 a1 b s t heq
  simp only [shadowBlock, List.mem_cons, List.mem_append] at ha
  rcases ha with h | h | h | h | h | h | h
  · rw [h] at heq; cases heq
  · rw [h] at heq; cases heq
  · rw [h] at heq; cases heq
  · rw [h] at heq; cases heq
  · rw [h] at heq; cases heq
  · exact entityDraws_inst w i w.entities.entities a h a0 a1 b s t heq
  · simp only [List.mem_cons, List.not_mem_nil, or_false] at h
    rcases h with h | h
    · rw [h] at heq; cases heq
    · rw [h] at heq; cases heq

/-! ## A concrete world and context, used to witness the theorems -/

/-- A shadow-map texture view for layer `n` of the example world. -/
def exShadowView (n : Nat) : TextureView :=
  { texture :=
      { width := 1024, height := 1024, depthOrArrayLayers := n + 1,
        mipLevelCount := 1, sampleCount := 1, dimension := TexDim.d2,
        format := TextureFormat.depth32Float, usage := TextureUsage.renderAttachment } }

def exLight0 : Light :=
  { position := ⟨1, 2, 3⟩, projection_view := Mat4.perspectiveRh 1 1 1 10,
    shadow_view := exShadowView 0 }

def exLight1 : Light :=
  { position := ⟨-2, 0, 5⟩, projection_view := Mat4.orthographicRh (-1) 1 (-1) 1 0 10,
    shadow_view := exShadowView 1 }

def exEntity : Entity :=
  { vertex_buf := 10, index_buf := 11, index_format := IndexFormat.uint16,
    index_count := 36, uniform_offset := 0 }

def exCfg : SurfaceConfig := { width := 800, height := 600 }

def exFrameView : TextureView :=
  { texture :=
      { width := 800, height := 600, depthOrArrayLayers := 1,
        mipLevelCount := 1, sampleCount := 1, dimension := TexDim.d2,
        format := TextureFormat.surfaceColor, usage := TextureUsage.renderAttachment } }

def exCtx : GpuContext :=
  { config := exCfg, frame := some exFrameView, bufferContents := [] }

def exWorld : World :=
  { entities := { entities := [exEntity], entity_bind_group := 20 }
    lights := { lights := [exLight0, exLight1] }
    shadow_material :=
      { projection_view_buffer := 6, layer_num_buffer := 7,
        shadow_debug_pipeline := 8, debug_bind_group := 9 }
    shadow_pass := { pipeline := 1, bind_group := 2 }
    forward_pass := { pipeline := 3, bind_group := 4, projection_view_buffer := 5 }
    forward_depth :=
      { texture :=
          { width := 800, height := 600, depthOrArrayLayers := 1,
            mipLevelCount := 1, sampleCount := 1, dimension := TexDim.d2,
            format := TextureFormat.depth32Float, usage := TextureUsage.renderAttachment } }
    show_shadows := false
    layer_number := 0
    camera_position := 0 }

/-- The command stream the example world records. -/
def exTrace : List Action :=
  renderTrace exWorld exCfg exFrameView (get_projection_view_matrix (aspectOf exCfg))

/-! ## The claims -/

/-- Claim C1: for every light index `i` in `[0, light_count)`, `render`
records one depth-only sub-pass (no color attachments) targeting light
`i`'s depth view, whose depth load operation clears to 1.0 and whose store
operation stores the result, and every indexed draw recorded inside that
sub-pass uses instance range `[i, i+1)`. -/
theorem shadow_subpass_per_light (w : World) (ctx : GpuContext) (tr : List Action)
    (i : Nat) (l : Light) (hl : w.lights.lights[i]? = some l)
    (hr : render w ctx = some tr) :
    ∃ pre post, tr = pre ++ shadowBlock w i l ++ post ∧
      beginsIn (shadowBlock w i l) = [shadowRenderPassDesc l] ∧
      (shadowRenderPassDesc l).colorAttachments = [] ∧
      (shadowRenderPassDesc l).depthStencilAttachment =
        some { view := l.shadow_view, depthLoad := LoadOp.clear 1,
               depthStore := StoreOp.store } ∧
      ∀ a ∈ shadowBlock w i l, ∀ a0 a1 b s t,
        a = Action.passCmd (PassCmd.drawIndexed a0 a1 b s t) → s = i ∧ t = i + 1 := by
  obtain ⟨fv, pv, hf, hpv, htr⟩ := render_some w ctx tr hr
  obtain ⟨pre0, post0, hLoop⟩ := shadowLoop_sub w w.lights.lights 0 i l hl
  rw [Nat.zero_add] at hLoop
  refine ⟨Action.entitiesUpdate :: Action.lightsUpdate :: Action.pushDebugGroup :: pre0,
    post0 ++ [Action.popDebugGroup] ++ forwardSection w ctx.config fv pv ++
      [Action.submit, Action.present], ?_,
    shadowBlock_beginsIn w i l, rfl, rfl, shadowBlock_inst w i l⟩
  rw [htr]
  simp [renderTrace, shadowSection, hLoop, List.append_assoc]

/-- Witness for C1 at the example world, light index 0. -/
theorem shadow_subpass_per_light_witness :
    exWorld.lights.lights[0]? = some exLight0 ∧
    render exWorld exCtx = some exTrace ∧
    (∃ pre post, exTrace = pre ++ shadowBlock exWorld 0 exLight0 ++ post ∧
      beginsIn (shadowBlock exWorld 0 exLight0) = [shadowRenderPassDesc exLight0] ∧
      (shadowRenderPassDesc exLight0).colorAttachments = [] ∧
      (shadowRenderPassDesc exLight0).depthStencilAttachment =
        some { view := exLight0.shadow_view, depthLoad := LoadOp.clear 1,
               depthStore := StoreOp.store } ∧
      ∀ a ∈ shadowBlock exWorld 0 exLight0, ∀ a0 a1 b s t,
        a = Action.passCmd (PassCmd.drawIndexed a0 a1 b s t) → s = 0 ∧ t = 0 + 1) :=
  ⟨rfl, rfl, shadow_subpass_per_light exWorld exCtx exTrace 0 exLight0 rfl rfl⟩

lemma forwardSection_inst_off (w : World) (cfg : SurfaceConfig) (fv : TextureView)
    (pv : Mat4) (hss : w.show_shadows = false) :
    ∀ a ∈ forwardSection w cfg fv pv, ∀ a0 a1 b s t,
      a = Action.passCmd (PassCmd.drawIndexed a0 a1 b s t) → s = 0 ∧ t = 1 := by
  intro a ha a0 a1 b s t heq
  rw [forwardSection, if_neg (by simp [hss])] at ha
  simp only [List.mem_cons, List.mem_append, List.not_mem_nil, or_false] at ha
  rcases ha with h | h | h | h | h | (h | h | h) | (h | h)
  · rw [h] at heq; cases heq
  · rw [h] at heq; cases heq
  · rw [h] at heq; cases heq
  · rw [h] at heq; cases heq
  · rw [h] at heq; cases heq
  · rw [h] at heq; cases heq
  · rw [h] at heq; cases heq
  · have := entityDraws_inst w 0 w.entities.entities a h a0 a1 b s t heq
    omega
  · rw [h] at heq; cases heq
  · rw [h] at heq; cases heq

/-- Claim C2: one call to `render` records exactly `|E| × |L|` indexed draw
calls during the shadow section (each entity once per light), and, when the
shadow-debug toggle is off, exactly `|E|` indexed draw calls during the
forward section, each with instance range `[0, 1)`. -/
theorem draw_call_counts (w : World) (ctx : GpuContext) (tr : List Action)
    (hr : render w ctx = some tr) :
    ∃ fv pv, ctx.frame = some fv ∧ tr = renderTrace w ctx.config fv pv ∧
      countDrawIndexed (shadowSection w) =
        w.entities.entities.length * w.lights.lights.length ∧
      (w.show_shadows = false →
        countDrawIndexed (forwardSection w ctx.config fv pv) =
          w.entities.entities.length ∧
        ∀ a ∈ forwardSection w ctx.config fv pv, ∀ a0 a1 b s t,
          a = Action.passCmd (PassCmd.drawIndexed a0 a1 b s t) → s = 0 ∧ t = 1) := by
  obtain ⟨fv, pv, hf, hpv, htr⟩ := render_some w ctx tr hr
  refine ⟨fv, pv, hf, htr, ?_, fun hss =>
    ⟨forwardSection_count_off w ctx.config fv pv hss,
     forwardSection_inst_off w ctx.config fv pv hss⟩⟩
  have h := shadowLoop_count w w.lights.lights 0
  simp [shadowSection, countDrawIndexed, List.countP_cons, List.countP_append,
    isDrawIndexed] at h ⊢
  rw [h]
  ring

/-- Witness for C2 at the example world: one entity, two lights, debug off. -/
theorem draw_call_counts_witness :
    render exWorld exCtx = some exTrace ∧
    (∃ fv pv, exCtx.frame = some fv ∧ exTrace = renderTrace exWorld exCtx.config fv pv ∧
      countDrawIndexed (shadowSection exWorld) =
        exWorld.entities.entities.length * exWorld.lights.lights.length ∧
      (exWorld.show_shadows = false →
        countDrawIndexed (forwardSection exWorld exCtx.config fv pv) =
          exWorld.entities.entities.length ∧
        ∀ a ∈ forwardSection exWorld exCtx.config fv pv, ∀ a0 a1 b s t,
          a = Action.passCmd (PassCmd.drawIndexed a0 a1 b s t) → s = 0 ∧ t = 1)) :=
  ⟨rfl, draw_call_counts exWorld exCtx exTrace rfl⟩

lemma shadowSection_mat4 (b : Nat) (w : World) :
    mat4WritesTo b (shadowSection w) = [] := by
  have h := shadowLoop_mat4 b w w.lights.lights 0
  simp [shadowSection, mat4WritesTo, mat4To, List.filterMap_append] at h ⊢
  exact h

lemma shadowSection_beginsIn (w : World) :
    beginsIn (shadowSection w) = w.lights.lights.map shadowRenderPassDesc := by
  have h := shadowLoop_beginsIn w w.lights.lights 0
  simp [shadowSection, beginsIn, passDescOf, List.filterMap_append] at h ⊢
  exact h

lemma shadowSection_no_sp (w : World) :
    (shadowSection w).any isSubmitOrPresent = false := by
  have h := shadowLoop_no_sp w w.lights.lights 0
  simp [shadowSection, isSubmitOrPresent, List.any_append] at h ⊢
  exact h

lemma shadowSection_no_quad (w : World) :
    (shadowSection w).any isQuadDraw = false := by
  have h := shadowLoop_no_quad w w.lights.lights 0
  simp [shadowSection, isQuadDraw, List.any_append] at h ⊢
  exact h

/-- Claim C3: the camera projection-view matrix uploaded to the forward
pass's uniform buffer during `render` is: the fixed default scene camera at
the configuration's aspect ratio for selector 0; light 0's projection-view
matrix for selector 1; light 1's for selector 2; the identity matrix for any
other selector value.  The uniform write is unique provided the overlay's
dedicated matrix buffer is a different buffer. -/
theorem forward_camera_matrix (w : World) (ctx : GpuContext) (tr : List Action)
    (hne : w.shadow_material.projection_view_buffer ≠ w.forward_pass.projection_view_buffer)
    (hr : render w ctx = some tr) :
    (w.camera_position = 0 →
      mat4WritesTo w.forward_pass.projection_view_buffer tr =
        [get_projection_view_matrix (aspectOf ctx.config)]) ∧
    (∀ l0, w.camera_position = 1 → w.lights.lights[0]? = some l0 →
      mat4WritesTo w.forward_pass.projection_view_buffer tr = [l0.projection_view]) ∧
    (∀ l1, w.camera_position = 2 → w.lights.lights[1]? = some l1 →
      mat4WritesTo w.forward_pass.projection_view_buffer tr = [l1.projection_view]) ∧
    (w.camera_position ≠ 0 → w.camera_position ≠ 1 → w.camera_position ≠ 2 →
      mat4WritesTo w.forward_pass.projection_view_buffer tr = [Mat4.identity]) := by
  obtain ⟨fv, pv, hf, hpv, htr⟩ := render_some w ctx tr hr
  have hT : mat4WritesTo w.forward_pass.projection_view_buffer tr = [pv] := by
    rw [htr]
    simp only [renderTrace]
    rw [mat4WritesTo_cons_none w.forward_pass.projection_view_buffer
        Action.entitiesUpdate _ rfl,
      mat4WritesTo_cons_none w.forward_pass.projection_view_buffer
        Action.lightsUpdate _ rfl,
      mat4WritesTo_append, mat4WritesTo_append, shadowSection_mat4,
      forwardSection_mat4 w ctx.config fv pv hne]
    rfl
  refine ⟨?_, ?_, ?_, ?_⟩
  · intro h0
    rw [computePV_zero w _ h0] at hpv
    rw [hT, Option.some.inj hpv]
  · intro l0 h1 hl
    rw [computePV_one w _ h1, hl] at hpv
    simp only [Option.map_some'] at hpv
    rw [hT, Option.some.inj hpv]
  · intro l1 h2 hl
    rw [computePV_two w _ h2, hl] at hpv
    simp only [Option.map_some'] at hpv
    rw [hT, Option.some.inj hpv]
  · intro h0 h1 h2
    rw [computePV_other w _ h0 h1 h2] at hpv
    rw [hT, Option.some.inj hpv]

/-- Witness for C3 at the example world (selector 0, distinct buffers). -/
theorem forward_camera_matrix_witness :
    exWorld.shadow_material.projection_view_buffer ≠
      exWorld.forward_pass.projection_view_buffer ∧
    render exWorld exCtx = some exTrace ∧
    ((exWorld.camera_position = 0 →
      mat4WritesTo exWorld.forward_pass.projection_view_buffer exTrace =
        [get_projection_view_matrix (aspectOf exCtx.config)]) ∧
    (∀ l0, exWorld.camera_position = 1 → exWorld.lights.lights[0]? = some l0 →
      mat4WritesTo exWorld.forward_pass.projection_view_buffer exTrace =
        [l0.projection_view]) ∧
    (∀ l1, exWorld.camera_position = 2 → exWorld.lights.lights[1]? = some l1 →
      mat4WritesTo exWorld.forward_pass.projection_view_buffer exTrace =
        [l1.projection_view]) ∧
    (exWorld.camera_position ≠ 0 → exWorld.camera_position ≠ 1 →
      exWorld.camera_position ≠ 2 →
      mat4WritesTo exWorld.forward_pass.projection_view_buffer exTrace =
        [Mat4.identity])) :=
  ⟨by decide, rfl, forward_camera_matrix exWorld exCtx exTrace (by decide) rfl⟩

/-- Claim C4: for every viewpoint-selector value outside the valid range
`{0, 1, 2}` and every debug-layer index outside its valid range (at least
the light count), `render` does not fail: it falls back to the identity
matrix and still produces (submits and presents) a frame. -/
theorem misuse_defaults (w : World) (ctx : GpuContext) (fv : TextureView)
    (hf : ctx.frame = some fv)
    (h0 : w.camera_position ≠ 0) (h1 : w.camera_position ≠ 1)
    (h2 : w.camera_position ≠ 2)
    (_hlayer : w.lights.lights.length ≤ w.layer_number) :
    ∃ tr, render w ctx = some tr ∧
      Action.writeMat4Buffer w.forward_pass.projection_view_buffer Mat4.identity ∈ tr ∧
      Action.writeU32Buffer w.shadow_material.layer_num_buffer w.layer_number ∈ tr ∧
      Action.submit ∈ tr ∧ Action.present ∈ tr := by
  have hpv := computePV_other w (aspectOf ctx.config) h0 h1 h2
  refine ⟨renderTrace w ctx.config fv Mat4.identity, ?_, ?_, ?_, ?_, ?_⟩
  · simp [render, hf, hpv]
  · simp [renderTrace, forwardSection]
  · simp [renderTrace, forwardSection]
  · simp [renderTrace]
  · simp [renderTrace]

/-- The example world with an out-of-range viewpoint selector and an
out-of-range debug layer index. -/
def exWorldMisuse : World := { exWorld with camera_position := 7, layer_number := 5 }

/-- Witness for C4 at the example world with selector 7, layer 5. -/
theorem misuse_defaults_witness :
    exCtx.frame = some exFrameView ∧
    exWorldMisuse.camera_position ≠ 0 ∧ exWorldMisuse.camera_position ≠ 1 ∧
    exWorldMisuse.camera_position ≠ 2 ∧
    exWorldMisuse.lights.lights.length ≤ exWorldMisuse.layer_number ∧
    (∃ tr, render exWorldMisuse exCtx = some tr ∧
      Action.writeMat4Buffer exWorldMisuse.forward_pass.projection_view_buffer
        Mat4.identity ∈ tr ∧
      Action.writeU32Buffer exWorldMisuse.shadow_material.layer_num_buffer
        exWorldMisuse.layer_number ∈ tr ∧
      Action.submit ∈ tr ∧ Action.present ∈ tr) :=
  ⟨rfl, by decide, by decide, by decide, by decide,
   misuse_defaults exWorldMisuse exCtx exFrameView rfl (by decide) (by decide)
     (by decide) (by decide)⟩

/-- Claim C5: in every call to `render`, all shadow sub-passes (one per
light, in light order) are recorded before the single forward/debug pass,
in one command stream that is submitted exactly once and then presented. -/
theorem pass_ordering (w : World) (ctx : GpuContext) (tr : List Action)
    (hr : render w ctx = some tr) :
    ∃ fv A B, ctx.frame = some fv ∧
      tr = A ++ B ++ [Action.submit, Action.present] ∧
      (A ++ B).any isSubmitOrPresent = false ∧
      beginsIn A = w.lights.lights.map shadowRenderPassDesc ∧
      beginsIn B = [forwardRenderPassDesc w fv] := by
  obtain ⟨fv, pv, hf, hpv, htr⟩ := render_some w ctx tr hr
  refine ⟨fv, Action.entitiesUpdate :: Action.lightsUpdate :: shadowSection w,
    forwardSection w ctx.config fv pv, hf, ?_, ?_, ?_,
    forwardSection_beginsIn w ctx.config fv pv⟩
  · rw [htr]
    simp [renderTrace, List.append_assoc]
  · have hS := shadowSection_no_sp w
    have hF := forwardSection_no_sp w ctx.config fv pv
    simp [isSubmitOrPresent, List.any_append] at hS hF ⊢
    exact ⟨hS, hF⟩
  · have hS := shadowSection_beginsIn w
    simp [beginsIn, passDescOf] at hS ⊢
    exact hS

/-- Witness for C5 at the example world. -/
theorem pass_ordering_witness :
    render exWorld exCtx = some exTrace ∧
    (∃ fv A B, exCtx.frame = some fv ∧
      exTrace = A ++ B ++ [Action.submit, Action.present] ∧
      (A ++ B).any isSubmitOrPresent = false ∧
      beginsIn A = exWorld.lights.lights.map shadowRenderPassDesc ∧
      beginsIn B = [forwardRenderPassDesc exWorld fv]) :=
  ⟨rfl, pass_ordering exWorld exCtx exTrace rfl⟩

/-- The aspect-ratio argument of the (leftmost) perspective factor of a
matrix expression, if any. -/
def perspectiveAspect : Mat4 → Option ℚ
  | Mat4.perspectiveRh _ aspect _ _ => some aspect
  | Mat4.mul x y => (perspectiveAspect x).orElse (fun _ => perspectiveAspect y)
  | _ => none

/-- Claim C6: for every surface configuration with width `W` and height `H`,
`resize` creates a screen-space depth target of exactly `W × H` pixels
(replacing the previous one) and uploads a default-camera projection-view
matrix whose perspective aspect term equals `W / H` (exact in the rational
model of `f32`). -/
theorem resize_depth_and_camera (w : World) (ctx : GpuContext) :
    (resize w ctx).1.forward_depth.texture.width = ctx.config.width ∧
    (resize w ctx).1.forward_depth.texture.height = ctx.config.height ∧
    (resize w ctx).1.forward_depth = create_depth_texture ctx ∧
    (resize w ctx).2 =
      [Action.writeMat4Buffer w.forward_pass.projection_view_buffer
        (get_projection_view_matrix
          ((ctx.config.width : ℚ) / (ctx.config.height : ℚ)))] ∧
    perspectiveAspect
        (get_projection_view_matrix ((ctx.config.width : ℚ) / (ctx.config.height : ℚ))) =
      some ((ctx.config.width : ℚ) / (ctx.config.height : ℚ)) :=
  ⟨rfl, rfl, rfl, rfl, rfl⟩

/-- Claim C7: whenever the shadow-debug overlay draw is recorded, the
orthographic projection-view matrix and the target layer index have been
written into the overlay's dedicated uniform buffers earlier in the stream,
and the overlay path performs no buffer writes and never binds the standard
forward-pass bind group. -/
theorem overlay_uniforms_before_draw (w : World) (ctx : GpuContext) (tr : List Action)
    (hss : w.show_shadows = true) (hr : render w ctx = some tr) :
    ∃ pre mid post,
      tr = pre ++
        Action.writeMat4Buffer w.shadow_material.projection_view_buffer
          (orthoProjectView ctx.config) ::
        Action.writeU32Buffer w.shadow_material.layer_num_buffer w.layer_number ::
        (mid ++ shadow_render_debug w.shadow_material ++ post) ∧
      (∀ a ∈ shadow_render_debug w.shadow_material,
        (∀ b m, a ≠ Action.writeMat4Buffer b m) ∧
        (∀ b v, a ≠ Action.writeU32Buffer b v)) ∧
      (w.shadow_material.debug_bind_group ≠ w.forward_pass.bind_group →
        ∀ s offs, Action.passCmd (PassCmd.setBindGroup s w.forward_pass.bind_group offs)
          ∉ shadow_render_debug w.shadow_material) := by
  obtain ⟨fv, pv, hf, hpv, htr⟩ := render_some w ctx tr hr
  refine ⟨Action.entitiesUpdate :: Action.lightsUpdate :: shadowSection w ++
      [Action.pushDebugGroup, Action.beginPass (forwardRenderPassDesc w fv)],
    [Action.writeMat4Buffer w.forward_pass.projection_view_buffer pv,
     Action.passCmd (PassCmd.setPipeline w.shadow_material.shadow_debug_pipeline)],
    [Action.endPass, Action.popDebugGroup, Action.submit, Action.present],
    ?_, ?_, ?_⟩
  · rw [htr]
    simp [renderTrace, forwardSection, hss, List.append_assoc]
  · intro a ha
    simp only [shadow_render_debug, List.mem_cons, List.not_mem_nil, or_false] at ha
    constructor
    · intro b m heq
      rcases ha with h | h <;> rw [h] at heq <;> cases heq
    · intro b v heq
      rcases ha with h | h <;> rw [h] at heq <;> cases heq
  · intro hbg s offs hmem
    simp only [shadow_render_debug, List.mem_cons, List.not_mem_nil, or_false] at hmem
    rcases hmem with h | h
    · simp only [Action.passCmd.injEq, PassCmd.setBindGroup.injEq] at h
      exact hbg h.2.1.symm
    · simp at h

/-- The example world with the shadow-debug overlay enabled. -/
def exWorldDebug : World := { exWorld with show_shadows := true }

/-- The command stream the debug-enabled example world records. -/
def exTraceDebug : List Action :=
  renderTrace exWorldDebug exCfg exFrameView (get_projection_view_matrix (aspectOf exCfg))

/-- Witness for C7 at the debug-enabled example world. -/
theorem overlay_uniforms_before_draw_witness :
    exWorldDebug.show_shadows = true ∧
    render exWorldDebug exCtx = some exTraceDebug ∧
    (∃ pre mid post,
      exTraceDebug = pre ++
        Action.writeMat4Buffer exWorldDebug.shadow_material.projection_view_buffer
          (orthoProjectView exCtx.config) ::
        Action.writeU32Buffer exWorldDebug.shadow_material.layer_num_buffer
          exWorldDebug.layer_number ::
        (mid ++ shadow_render_debug exWorldDebug.shadow_material ++ post) ∧
      (∀ a ∈ shadow_render_debug exWorldDebug.shadow_material,
        (∀ b m, a ≠ Action.writeMat4Buffer b m) ∧
        (∀ b v, a ≠ Action.writeU32Buffer b v)) ∧
      (exWorldDebug.shadow_material.debug_bind_group ≠ exWorldDebug.forward_pass.bind_group →
        ∀ s offs, Action.passCmd
            (PassCmd.setBindGroup s exWorldDebug.forward_pass.bind_group offs)
          ∉ shadow_render_debug exWorldDebug.shadow_material)) :=
  ⟨rfl, rfl, overlay_uniforms_before_draw exWorldDebug exCtx exTraceDebug rfl rfl⟩

lemma isSome_map_eq {α β : Type} (f : α → β) (o : Option α) :
    (o.map f).isSome = o.isSome := by
  cases o <;> rfl

lemma getElem?_isSome_iff {α : Type} (l : List α) (n : Nat) :
    (l[n]?).isSome = true ↔ n < l.length := by
  induction l generalizing n with
  | nil => simp
  | cons x xs ih =>
    cases n with
    | zero => simp
    | succ m => simpa using ih m

/-- Claim C8: with a frame available, `render` completes without a panic
exactly when the light set is large enough for the viewpoint selector
(selector 1 needs at least 1 light, selector 2 at least 2); under those
preconditions the light-array indexing of the selector match is in bounds. -/
theorem render_panic_iff (w : World) (ctx : GpuContext) (fv : TextureView)
    (hf : ctx.frame = some fv) :
    ((render w ctx).isSome = true ↔
      ((w.camera_position = 1 → 1 ≤ w.lights.lights.length) ∧
       (w.camera_position = 2 → 2 ≤ w.lights.lights.length))) ∧
    (w.camera_position = 1 → 1 ≤ w.lights.lights.length →
      (w.lights.lights[0]?).isSome = true) ∧
    (w.camera_position = 2 → 2 ≤ w.lights.lights.length →
      (w.lights.lights[1]?).isSome = true) := by
  refine ⟨?_, fun _ hlen => (getElem?_isSome_iff _ 0).mpr (by omega),
    fun _ hlen => (getElem?_isSome_iff _ 1).mpr (by omega)⟩
  have hrender : (render w ctx).isSome = (computePV w (aspectOf ctx.config)).isSome := by
    simp only [render, hf]
    cases hc : computePV w (aspectOf ctx.config) <;> simp
  rw [hrender]
  rcases hcp : w.camera_position with _ | n
  · rw [computePV_zero w _ hcp]
    simp [hcp]
  · cases n with
    | zero =>
      rw [computePV_one w _ hcp]
      simp only [hcp, isSome_map_eq]
      rw [getElem?_isSome_iff]
      constructor
      · intro h
        exact ⟨fun _ => by omega, fun h2 => by omega⟩
      · intro h
        have := h.1 trivial
        omega
    | succ m =>
      cases m with
      | zero =>
        rw [computePV_two w _ hcp]
        simp only [hcp, isSome_map_eq]
        rw [getElem?_isSome_iff]
        constructor
        · intro h
          exact ⟨fun h1 => by omega, fun _ => by omega⟩
        · intro h
          have := h.2 trivial
          omega
      | succ k =>
        rw [computePV_other w _ (by omega) (by omega) (by omega)]
        simp only [Option.isSome_some, true_iff]
        exact ⟨fun h => by omega, fun h => by omega⟩

/-- Witness for C8 at the example world. -/
theorem render_panic_iff_witness :
    exCtx.frame = some exFrameView ∧
    (((render exWorld exCtx).isSome = true ↔
      ((exWorld.camera_position = 1 → 1 ≤ exWorld.lights.lights.length) ∧
       (exWorld.camera_position = 2 → 2 ≤ exWorld.lights.lights.length))) ∧
    (exWorld.camera_position = 1 → 1 ≤ exWorld.lights.lights.length →
      (exWorld.lights.lights[0]?).isSome = true) ∧
    (exWorld.camera_position = 2 → 2 ≤ exWorld.lights.lights.length →
      (exWorld.lights.lights[1]?).isSome = true)) :=
  ⟨rfl, render_panic_iff exWorld exCtx exFrameView rfl⟩

/-- Claim C9: in every successful call to `render`, the shadow-debug
overlay's projection-view uniform buffer and layer-index uniform buffer are
written — with the orthographic matrix derived from the current surface
configuration and the current layer number — even when the shadow-debug
toggle is off, in which case no overlay (non-indexed quad) draw is
recorded. -/
theorem overlay_uniforms_always_written (w : World) (ctx : GpuContext)
    (tr : List Action) (hss : w.show_shadows = false)
    (hr : render w ctx = some tr) :
    Action.writeMat4Buffer w.shadow_material.projection_view_buffer
      (orthoProjectView ctx.config) ∈ tr ∧
    Action.writeU32Buffer w.shadow_material.layer_num_buffer w.layer_number ∈ tr ∧
    tr.any isQuadDraw = false := by
  obtain ⟨fv, pv, hf, hpv, htr⟩ := render_some w ctx tr hr
  refine ⟨?_, ?_, ?_⟩
  · rw [htr]
    simp [renderTrace, forwardSection]
  · rw [htr]
    simp [renderTrace, forwardSection]
  · rw [htr]
    have hS := shadowSection_no_quad w
    have hF := forwardSection_no_quad_off w ctx.config fv pv hss
    simp [renderTrace, List.any_append, isQuadDraw] at hS hF ⊢
    exact ⟨hS, hF⟩

/-- Witness for C9 at the example world (debug toggle off). -/
theorem overlay_uniforms_always_written_witness :
    exWorld.show_shadows = false ∧
    render exWorld exCtx = some exTrace ∧
    (Action.writeMat4Buffer exWorld.shadow_material.projection_view_buffer
      (orthoProjectView exCtx.config) ∈ exTrace ∧
    Action.writeU32Buffer exWorld.shadow_material.layer_num_buffer
      exWorld.layer_number ∈ exTrace ∧
    exTrace.any isQuadDraw = false) :=
  ⟨rfl, rfl, overlay_uniforms_always_written exWorld exCtx exTrace rfl rfl⟩

/-- Claim C10: `render` overwrites the forward-pass projection-view uniform
buffer after beginning the forward pass but before any forward or debug draw
is recorded, and the commands it records do not depend on the prior contents
of the GPU buffers — so the matrix `resize` uploads to that buffer has no
influence on any subsequently rendered frame. -/
theorem camera_buffer_noninterference (w : World) (cfg : SurfaceConfig)
    (fr : Option TextureView) (b1 b2 : List (Nat × BufVal)) (fv : TextureView)
    (tr : List Action) (hf : fr = some fv)
    (hr : render w { config := cfg, frame := fr, bufferContents := b1 } = some tr) :
    render w { config := cfg, frame := fr, bufferContents := b2 } = some tr ∧
    ∃ pre mid post pv,
      tr = pre ++ Action.beginPass (forwardRenderPassDesc w fv) ::
        (mid ++ Action.writeMat4Buffer w.forward_pass.projection_view_buffer pv :: post) ∧
      mid.any isDrawAct = false := by
  have hsame : render w { config := cfg, frame := fr, bufferContents := b2 } =
      render w { config := cfg, frame := fr, bufferContents := b1 } := rfl
  refine ⟨hsame.trans hr, ?_⟩
  obtain ⟨fv2, pv, hf2, hpv, htr⟩ :=
    render_some w { config := cfg, frame := fr, bufferContents := b1 } tr hr
  have hfv : fv2 = fv := by
    rw [hf] at hf2
    exact (Option.some.inj hf2).symm
  subst hfv
  refine ⟨Action.entitiesUpdate :: Action.lightsUpdate :: shadowSection w ++
      [Action.pushDebugGroup],
    [Action.writeMat4Buffer w.shadow_material.projection_view_buffer
      (orthoProjectView cfg),
     Action.writeU32Buffer w.shadow_material.layer_num_buffer w.layer_number],
    ((if w.show_shadows = true then
        Action.passCmd (PassCmd.setPipeline w.shadow_material.shadow_debug_pipeline) ::
        shadow_render_debug w.shadow_material
      else
        Action.passCmd (PassCmd.setPipeline w.forward_pass.pipeline) ::
        Action.passCmd (PassCmd.setBindGroup 0 w.forward_pass.bind_group []) ::
        entityDraws w 0 w.entities.entities)
      ++ [Action.endPass, Action.popDebugGroup]) ++ [Action.submit, Action.present],
    pv, ?_, by simp [isDrawAct, isDrawIndexed, isQuadDraw]⟩
  rw [htr]
  simp [renderTrace, forwardSection, List.append_assoc]

/-- The example context with stale contents left in the forward-pass camera
buffer (identity 5). -/
def exCtxStale : GpuContext :=
  { config := exCfg, frame := some exFrameView, bufferContents := [(5, BufVal.u32 9)] }

/-- Witness for C10 at the example world, two different prior buffer
states. -/
theorem camera_buffer_noninterference_witness :
    (some exFrameView = some exFrameView) ∧
    render exWorld exCtx = some exTrace ∧
    (render exWorld exCtxStale = some exTrace ∧
      ∃ pre mid post pv,
        exTrace = pre ++ Action.beginPass (forwardRenderPassDesc exWorld exFrameView) ::
          (mid ++ Action.writeMat4Buffer
            exWorld.forward_pass.projection_view_buffer pv :: post) ∧
        mid.any isDrawAct = false) :=
  ⟨rfl, rfl,
   camera_buffer_noninterference exWorld exCfg (some exFrameView) []
     [(5, BufVal.u32 9)] exFrameView exTrace rfl rfl⟩

end SparkGap
